import Mathlib

/-!
Shallow embedding of the crash-analysis core of `src/Crash.py`
(class `CrashDetector`): the pure pairwise-overlap analysis performed on one
frame's detections (`_calculate_iou`, `_determine_crash_type`,
`_check_crash_scenarios`, `_analyze_detections`) together with the session
counters (`detection_count`, `last_crash_time`).

Numeric detector outputs (box coordinates, confidences, IoU) are modelled
over `ℚ`; class ids over `ℤ`.  Python index errors (the only exceptions the
analysed code can raise on array input) are modelled by `Option`: `none`
stands for an exception reaching the `try/except` of `_analyze_detections`.
-/

/-- A bounding box `(x1, y1, x2, y2)`, as one row of `result.boxes.xyxy`. -/
structure Box where
  x1 : ℚ
  y1 : ℚ
  x2 : ℚ
  y2 : ℚ
deriving DecidableEq, Repr

/-- Area helper: `(box[2] - box[0]) * (box[3] - box[1])` (Crash.py lines 219-220). -/
def boxArea (b : Box) : ℚ := (b.x2 - b.x1) * (b.y2 - b.y1)

/-- Intersection area of two boxes (Crash.py lines 210-216):
`max(0, x2 - x1) * max(0, y2 - y1)` with `x1 = max(box1[0], box2[0])`,
`x2 = min(box1[2], box2[2])` and likewise for `y`. -/
def interArea (b1 b2 : Box) : ℚ :=
  max 0 (min b1.x2 b2.x2 - max b1.x1 b2.x1) * max 0 (min b1.y2 b2.y2 - max b1.y1 b2.y1)

/-- Union area of two boxes (Crash.py line 221): `area1 + area2 - intersection`. -/
def unionArea (b1 b2 : Box) : ℚ := boxArea b1 + boxArea b2 - interArea b1 b2

/-- `CrashDetector._calculate_iou` (Crash.py lines 208-223):
`intersection / union if union > 0 else 0`. -/
def calculate_iou (b1 b2 : Box) : ℚ :=
  if unionArea b1 b2 > 0 then interArea b1 b2 / unionArea b1 b2 else 0

/-- The class-name table of `_determine_crash_type` (Crash.py lines 194-201). -/
def classNames (c : ℤ) : Option String :=
  if c = 0 then some "person"
  else if c = 1 then some "bicycle"
  else if c = 2 then some "car"
  else if c = 3 then some "motorcycle"
  else if c = 5 then some "bus"
  else if c = 7 then some "truck"
  else none

/-- `CrashDetector._determine_crash_type` (Crash.py lines 191-206):
`class_names.get(int(class1), f'class_{class1}')` for each class, joined as
`"{name1}-{name2}_collision"`. -/
def determine_crash_type (c1 c2 : ℤ) : String :=
  let name1 := (classNames c1).getD ("class_" ++ toString c1)
  let name2 := (classNames c2).getD ("class_" ++ toString c2)
  name1 ++ "-" ++ name2 ++ "_collision"

/-- One entry of the `crash_events` list (Crash.py lines 181-187). -/
structure CrashEvent where
  type : String
  iou : ℚ
  confidence : ℚ
  object1 : ℤ
  object2 : ℤ
deriving DecidableEq, Repr

/-- Runs the loop body `f` on every element of `l` in order, concatenating the
produced event lists; `none` (an exception in the body) aborts the whole loop,
as a Python exception would. -/
def loopCollect (f : ℕ → Option (List CrashEvent)) : List ℕ → Option (List CrashEvent)
  | [] => some []
  | i :: is => (f i).bind fun evs => (loopCollect f is).map fun rest => evs ++ rest

/-- Body of the inner loop of `_check_crash_scenarios` (Crash.py lines 169-187)
for fixed outer index `i` with `box_i`, `class_i` already read: reads
`boxes[j]`, `classes[j]`, computes the IoU and, when it exceeds the threshold,
reads `confidences[i]`, `confidences[j]` and emits one event. -/
def pairCheck (boxes : List Box) (classes : List ℤ) (confs : List ℚ) (thr : ℚ)
    (bi : Box) (ci : ℤ) (i j : ℕ) : Option (List CrashEvent) :=
  (boxes.get? j).bind fun bj =>
  (classes.get? j).bind fun cj =>
  let iou := calculate_iou bi bj
  if iou > thr then
    (confs.get? i).bind fun fi =>
    (confs.get? j).bind fun fj =>
    some [⟨determine_crash_type ci cj, iou, min fi fj, ci, cj⟩]
  else some []

/-- Body of the outer loop of `_check_crash_scenarios` (Crash.py lines 165-187):
reads `boxes[i]`, `classes[i]`, then runs the inner loop over
`range(i + 1, len(boxes))`. -/
def rowCheck (boxes : List Box) (classes : List ℤ) (confs : List ℚ) (thr : ℚ)
    (i : ℕ) : Option (List CrashEvent) :=
  (boxes.get? i).bind fun bi =>
  (classes.get? i).bind fun ci =>
  loopCollect (pairCheck boxes classes confs thr bi ci i)
    (List.range' (i + 1) (boxes.length - (i + 1)))

/-- `CrashDetector._check_crash_scenarios` (Crash.py lines 157-189): returns
`(False, [])` for fewer than two boxes, otherwise the pairwise scan; the first
component is `len(crash_events) > 0`.  `none` models an uncaught exception
(an index error from mismatched array lengths). -/
def check_crash_scenarios (boxes : List Box) (classes : List ℤ) (confs : List ℚ)
    (thr : ℚ := 0.4) : Option (Bool × List CrashEvent) :=
  if boxes.length < 2 then some (false, [])
  else
    (loopCollect (rowCheck boxes classes confs thr) (List.range boxes.length)).map
      fun evs => (decide (evs.length > 0), evs)

/-- `np.sum(classes == c)` (Crash.py lines 124-128). -/
def countClass (classes : List ℤ) (c : ℤ) : ℕ :=
  (classes.filter fun x => x = c).length

/-- The `last_detection_info` record built by `_analyze_detections`
(Crash.py lines 135-146). -/
structure DetectionInfo where
  timestamp : String
  objects_detected : ℕ
  cars : ℕ
  trucks : ℕ
  buses : ℕ
  persons : ℕ
  motorcycles : ℕ
  potential_crash : Bool
  crash_info : List CrashEvent
  confidence_avg : ℚ
deriving DecidableEq, Repr

/-- The mutable session state of a `CrashDetector`
(Crash.py lines 37-39, 148, 151, 155). -/
structure DetectorState where
  detection_count : ℕ
  last_crash_time : Option String
  last_detection_info : Option DetectionInfo
deriving DecidableEq, Repr

/-- `CrashDetector._analyze_detections` (Crash.py lines 111-155) on one frame's
extracted arrays, with `now` the timestamp string taken at analysis time.
If the crash scan raises (mismatched lengths), the `except` branch sets
`last_detection_info = None` and leaves the counters untouched; otherwise the
info record is stored, `detection_count` is incremented, and on a potential
crash `last_crash_time` is set to `now`. -/
def analyze_detections (s : DetectorState) (now : String)
    (boxes : List Box) (classes : List ℤ) (confs : List ℚ) : DetectorState :=
  match check_crash_scenarios boxes classes confs with
  | none => { s with last_detection_info := none }
  | some (potential_crash, crash_info) =>
      { detection_count := s.detection_count + 1
        last_crash_time := if potential_crash then some now else s.last_crash_time
        last_detection_info := some
          { timestamp := now
            objects_detected := boxes.length
            cars := countClass classes 2
            trucks := countClass classes 7
            buses := countClass classes 5
            persons := countClass classes 0
            motorcycles := countClass classes 3
            potential_crash := potential_crash
            crash_info := crash_info
            confidence_avg := if confs.length > 0 then confs.sum / confs.length else 0 } }

/-- The shape every emitted CrashEvent must have: it belongs to some pair
`i < j` of detections and carries exactly the pair's IoU, the minimum of the
two confidences, the two class ids, and the label from the class-name table. -/
def eventFromPair (boxes : List Box) (classes : List ℤ) (confs : List ℚ)
    (thr : ℚ) (ev : CrashEvent) : Prop :=
  ∃ i j bi bj ci cj fi fj, i < j ∧
    boxes.get? i = some bi ∧ boxes.get? j = some bj ∧
    classes.get? i = some ci ∧ classes.get? j = some cj ∧
    confs.get? i = some fi ∧ confs.get? j = some fj ∧
    thr < calculate_iou bi bj ∧
    ev = ⟨determine_crash_type ci cj, calculate_iou bi bj, min fi fj, ci, cj⟩

/-! ## Generic lemmas about the loop combinator -/

/-- If the body succeeds nowhere-failing and an event is in the collected list,
it came from the body at some index of the loop list. -/
lemma loopCollect_mem {f : ℕ → Option (List CrashEvent)} :
    ∀ {l : List ℕ} {evs : List CrashEvent} {ev : CrashEvent},
      loopCollect f l = some evs → ev ∈ evs →
      ∃ i, i ∈ l ∧ ∃ evsi, f i = some evsi ∧ ev ∈ evsi := by
  intro l
  induction l with
  | nil =>
      intro evs ev h hm
      simp only [loopCollect, Option.some.injEq] at h
      subst h
      simp at hm
  | cons a as ih =>
      intro evs ev h hm
      simp only [loopCollect] at h
      obtain ⟨e0, hf, hmap⟩ := Option.bind_eq_some.mp h
      obtain ⟨rest, hrest, heq⟩ := Option.map_eq_some'.mp hmap
      subst heq
      rcases List.mem_append.mp hm with h1 | h2
      · exact ⟨a, List.mem_cons_self _ _, e0, hf, h1⟩
      · obtain ⟨i, hi, evsi, hfi, hmi⟩ := ih hrest h2
        exact ⟨i, List.mem_cons_of_mem _ hi, evsi, hfi, hmi⟩

/-- If the body raises at some index of the loop list, the whole loop raises. -/
lemma loopCollect_none {f : ℕ → Option (List CrashEvent)} :
    ∀ {l : List ℕ} {i : ℕ}, i ∈ l → f i = none → loopCollect f l = none := by
  intro l
  induction l with
  | nil => intro i hi; simp at hi
  | cons a as ih =>
      intro i hi hf
      rcases List.mem_cons.mp hi with h1 | h2
      · subst h1
        simp [loopCollect, hf]
      · simp only [loopCollect]
        cases hfa : f a with
        | none => rfl
        | some e0 => simp [ih h2 hf]

/-! ## Theorems for the claims -/

/-- C8: whenever the union-area of two boxes is non-positive, `_calculate_iou`
takes the guarded branch and returns 0; the division by the union is never
reached, so no division-by-zero error can occur. -/
theorem iou_union_nonpos_zero (b1 b2 : Box) (h : unionArea b1 b2 ≤ 0) :
    calculate_iou b1 b2 = 0 := by
  unfold calculate_iou
  rw [if_neg (not_lt.mpr h)]

/-- Witness for C8 at the degenerate zero-area box `(0,0,0,0)`. -/
theorem iou_union_nonpos_zero_witness :
    unionArea ⟨0, 0, 0, 0⟩ ⟨0, 0, 0, 0⟩ ≤ 0 ∧ calculate_iou ⟨0, 0, 0, 0⟩ ⟨0, 0, 0, 0⟩ = 0 :=
  ⟨by norm_num [unionArea, boxArea, interArea],
   iou_union_nonpos_zero ⟨0, 0, 0, 0⟩ ⟨0, 0, 0, 0⟩
     (by norm_num [unionArea, boxArea, interArea])⟩

/-- The short-circuit of `_check_crash_scenarios` on fewer than two boxes. -/
lemma check_lt_two_boxes (boxes : List Box) (classes : List ℤ)
    (confs : List ℚ) (thr : ℚ) (h : boxes.length < 2) :
    check_crash_scenarios boxes classes confs thr = some (false, []) := by
  unfold check_crash_scenarios
  rw [if_pos h]

/-- C10: with fewer than two boxes, `_check_crash_scenarios` short-circuits to
`(False, [])` — no CrashEvent and no potential crash — regardless of the boxes'
geometry, the class ids or the confidences. -/
theorem fewer_than_two_no_crash (boxes : List Box) (classes : List ℤ)
    (confs : List ℚ) (thr : ℚ) (h : boxes.length < 2) :
    check_crash_scenarios boxes classes confs thr = some (false, []) :=
  check_lt_two_boxes boxes classes confs thr h

/-- Witness for C10 on a single-box input. -/
theorem fewer_than_two_no_crash_witness :
    ([(⟨0, 0, 10, 10⟩ : Box)].length < 2) ∧
      check_crash_scenarios [⟨0, 0, 10, 10⟩] [2] [1/2] 0.4 = some (false, []) :=
  ⟨by simp, fewer_than_two_no_crash [⟨0, 0, 10, 10⟩] [2] [1/2] 0.4 (by simp)⟩

/-- The first component returned by `_check_crash_scenarios` is
`len(crash_events) > 0`. -/
lemma check_potential_crash_iff {boxes : List Box} {classes : List ℤ}
    {confs : List ℚ} {thr : ℚ} {p : Bool} {evs : List CrashEvent}
    (h : check_crash_scenarios boxes classes confs thr = some (p, evs)) :
    p = true ↔ evs ≠ [] := by
  unfold check_crash_scenarios at h
  split at h
  · simp only [Option.some.injEq, Prod.mk.injEq] at h
    obtain ⟨rfl, rfl⟩ := h
    simp
  · obtain ⟨evs0, _, heq⟩ := Option.map_eq_some'.mp h
    simp only [Prod.mk.injEq] at heq
    obtain ⟨hp, rfl⟩ := heq
    subst hp
    simp only [decide_eq_true_eq, gt_iff_lt]
    exact List.length_pos

/-- Evaluation of `_check_crash_scenarios` on exactly two boxes (the classes and
confidence arrays may carry extra trailing entries, which the pair scan never
reads): the single pair `(0, 1)` is flagged exactly when its IoU exceeds the
threshold, and the emitted event carries the pair's IoU, the minimum of the two
confidences and the label from the class-name table. -/
lemma check_two_boxes (b1 b2 : Box) (c1 c2 : ℤ) (crest : List ℤ) (f1 f2 : ℚ)
    (frest : List ℚ) (thr : ℚ) :
    check_crash_scenarios [b1, b2] (c1 :: c2 :: crest) (f1 :: f2 :: frest) thr =
      some (if thr < calculate_iou b1 b2
        then (true, [⟨determine_crash_type c1 c2, calculate_iou b1 b2, min f1 f2, c1, c2⟩])
        else (false, [])) := by
  have hr : List.range 2 = [0, 1] := rfl
  by_cases h : thr < calculate_iou b1 b2 <;>
    simp [check_crash_scenarios, rowCheck, pairCheck, loopCollect, hr,
      List.range', List.get?, h]

/-- Success path of `_analyze_detections`: the crash scan returned, so the info
record is stored, the frame counter increments, and `last_crash_time` advances
exactly on a potential crash. -/
lemma analyze_eq_of_check {boxes : List Box} {classes : List ℤ} {confs : List ℚ}
    {p : Bool} {evs : List CrashEvent} (s : DetectorState) (now : String)
    (h : check_crash_scenarios boxes classes confs = some (p, evs)) :
    analyze_detections s now boxes classes confs =
      { detection_count := s.detection_count + 1
        last_crash_time := if p then some now else s.last_crash_time
        last_detection_info := some
          { timestamp := now
            objects_detected := boxes.length
            cars := countClass classes 2
            trucks := countClass classes 7
            buses := countClass classes 5
            persons := countClass classes 0
            motorcycles := countClass classes 3
            potential_crash := p
            crash_info := evs
            confidence_avg := if confs.length > 0 then confs.sum / confs.length else 0 } } := by
  unfold analyze_detections
  rw [h]

/-- Exception path of `_analyze_detections`: the crash scan raised, the
`except` branch nulls `last_detection_info` and touches nothing else. -/
lemma analyze_eq_of_check_none {boxes : List Box} {classes : List ℤ}
    {confs : List ℚ} (s : DetectorState) (now : String)
    (h : check_crash_scenarios boxes classes confs = none) :
    analyze_detections s now boxes classes confs =
      { s with last_detection_info := none } := by
  unfold analyze_detections
  rw [h]

/-- Branch evaluation of `_calculate_iou` when the union is positive. -/
lemma iou_eval (b1 b2 : Box) (hu : 0 < unionArea b1 b2) :
    calculate_iou b1 b2 = interArea b1 b2 / unionArea b1 b2 := if_pos hu

/-- C9: the `potential_crash` flag of the summary stored by
`_analyze_detections` is true exactly when the frame's CrashEvent list is
non-empty. -/
theorem potential_crash_iff_events (s : DetectorState) (now : String)
    (boxes : List Box) (classes : List ℤ) (confs : List ℚ) (info : DetectionInfo)
    (h : (analyze_detections s now boxes classes confs).last_detection_info = some info) :
    info.potential_crash = true ↔ info.crash_info ≠ [] := by
  unfold analyze_detections at h
  cases hc : check_crash_scenarios boxes classes confs with
  | none => rw [hc] at h; simp at h
  | some pe =>
      obtain ⟨p, evs⟩ := pe
      rw [hc] at h
      simp only [Option.some.injEq] at h
      subst h
      exact check_potential_crash_iff hc

/-- Witness for C9 on the empty frame. -/
theorem potential_crash_iff_events_witness :
    (analyze_detections ⟨0, none, none⟩ "t" [] [] []).last_detection_info =
      some ⟨"t", 0, 0, 0, 0, 0, 0, false, [], 0⟩ ∧
    ((⟨"t", 0, 0, 0, 0, 0, 0, false, [], 0⟩ : DetectionInfo).potential_crash = true ↔
      (⟨"t", 0, 0, 0, 0, 0, 0, false, [], 0⟩ : DetectionInfo).crash_info ≠ []) := by
  have h1 : (analyze_detections ⟨0, none, none⟩ "t" [] [] []).last_detection_info =
      some ⟨"t", 0, 0, 0, 0, 0, 0, false, [], 0⟩ := by
    rw [analyze_eq_of_check _ _ (check_lt_two_boxes [] [] [] 0.4 (by simp))]
    rfl
  exact ⟨h1, potential_crash_iff_events _ _ _ _ _ _ h1⟩

/-- C5: for a different-class pair, the comparison against the proximity
threshold is strict — IoU exactly at the threshold is not flagged, while
IoU equal to threshold + ε for any ε > 0 is flagged, with the event carrying
the IoU, the minimum confidence and the table-derived label. -/
theorem threshold_boundary_strict (b1 b2 : Box) (c1 c2 : ℤ) (f1 f2 : ℚ)
    (thr ε : ℚ) (_hc : c1 ≠ c2) :
    (calculate_iou b1 b2 = thr →
      check_crash_scenarios [b1, b2] [c1, c2] [f1, f2] thr = some (false, [])) ∧
    (0 < ε → calculate_iou b1 b2 = thr + ε →
      check_crash_scenarios [b1, b2] [c1, c2] [f1, f2] thr =
        some (true,
          [⟨determine_crash_type c1 c2, calculate_iou b1 b2, min f1 f2, c1, c2⟩])) := by
  constructor
  · intro heq
    rw [check_two_boxes b1 b2 c1 c2 [] f1 f2 [] thr, if_neg]
    rw [heq]
    exact lt_irrefl thr
  · intro hε heq
    rw [check_two_boxes b1 b2 c1 c2 [] f1 f2 [] thr, if_pos]
    rw [heq]
    linarith

/-- Witness for C5: boxes A=(0,0,10,10), B=(5,5,15,15) have IoU 1/7; with
threshold exactly 1/7 the pair is not flagged, with threshold 1/10
(ε = 3/70) it is. -/
theorem threshold_boundary_strict_witness :
    ((2 : ℤ) ≠ 0) ∧
    check_crash_scenarios [⟨0, 0, 10, 10⟩, ⟨5, 5, 15, 15⟩] [2, 0] [9/10, 8/10] (1/7) =
      some (false, []) ∧
    check_crash_scenarios [⟨0, 0, 10, 10⟩, ⟨5, 5, 15, 15⟩] [2, 0] [9/10, 8/10] (1/10) =
      some (true, [⟨determine_crash_type 2 0, calculate_iou ⟨0, 0, 10, 10⟩ ⟨5, 5, 15, 15⟩,
        min (9/10) (8/10), 2, 0⟩]) := by
  have hiou : calculate_iou ⟨0, 0, 10, 10⟩ ⟨5, 5, 15, 15⟩ = 1/7 := by
    rw [iou_eval _ _ (by norm_num [unionArea, interArea, boxArea])]
    norm_num [unionArea, interArea, boxArea]
  refine ⟨by decide, ?_, ?_⟩
  · exact (threshold_boundary_strict _ _ 2 0 _ _ (1/7) 0 (by decide)).1 hiou
  · exact (threshold_boundary_strict _ _ 2 0 _ _ (1/10) (3/70) (by decide)).2
      (by norm_num) (by rw [hiou]; norm_num)

/-- C7: for well-formed boxes (x1 < x2, y1 < y2) the IoU lies in [0, 1], and
the IoU of a well-formed positive-area box with itself is 1. -/
theorem iou_range_and_self :
    (∀ b1 b2 : Box, b1.x1 < b1.x2 → b1.y1 < b1.y2 → b2.x1 < b2.x2 → b2.y1 < b2.y2 →
        0 ≤ calculate_iou b1 b2 ∧ calculate_iou b1 b2 ≤ 1) ∧
    (∀ a : Box, a.x1 < a.x2 → a.y1 < a.y2 → 0 < boxArea a → calculate_iou a a = 1) := by
  constructor
  · intro b1 b2 h1 h2 h3 h4
    have hi0 : 0 ≤ interArea b1 b2 := mul_nonneg (le_max_left 0 _) (le_max_left 0 _)
    have hwx1 : (0 : ℚ) ≤ b1.x2 - b1.x1 := by linarith
    have hwy1 : (0 : ℚ) ≤ b1.y2 - b1.y1 := by linarith
    have hwx2 : (0 : ℚ) ≤ b2.x2 - b2.x1 := by linarith
    have hwy2 : (0 : ℚ) ≤ b2.y2 - b2.y1 := by linarith
    have hiA : interArea b1 b2 ≤ boxArea b1 := by
      unfold interArea boxArea
      exact mul_le_mul (max_le hwx1 (sub_le_sub (min_le_left _ _) (le_max_left _ _)))
        (max_le hwy1 (sub_le_sub (min_le_left _ _) (le_max_left _ _)))
        (le_max_left 0 _) hwx1
    have hiB : interArea b1 b2 ≤ boxArea b2 := by
      unfold interArea boxArea
      exact mul_le_mul (max_le hwx2 (sub_le_sub (min_le_right _ _) (le_max_right _ _)))
        (max_le hwy2 (sub_le_sub (min_le_right _ _) (le_max_right _ _)))
        (le_max_left 0 _) hwx2
    have hA1 : 0 < boxArea b1 := by
      unfold boxArea
      exact mul_pos (by linarith) (by linarith)
    have hA2 : 0 < boxArea b2 := by
      unfold boxArea
      exact mul_pos (by linarith) (by linarith)
    have hu : 0 < unionArea b1 b2 := by
      unfold unionArea
      linarith
    constructor
    · rw [iou_eval _ _ hu]
      exact div_nonneg hi0 hu.le
    · rw [iou_eval _ _ hu, div_le_one hu]
      unfold unionArea
      linarith
  · intro a h1 h2 hpos
    have hia : interArea a a = boxArea a := by
      unfold interArea boxArea
      simp only [min_self, max_self]
      rw [max_eq_right (by linarith : (0 : ℚ) ≤ a.x2 - a.x1),
          max_eq_right (by linarith : (0 : ℚ) ≤ a.y2 - a.y1)]
    have hu : unionArea a a = boxArea a := by
      unfold unionArea
      rw [hia]
      ring
    unfold calculate_iou
    rw [hu, hia, if_pos hpos]
    exact div_self (ne_of_gt hpos)

/-- Witness for C7 at boxes A=(0,0,10,10), B=(5,5,15,15). -/
theorem iou_range_and_self_witness :
    (0 ≤ calculate_iou ⟨0, 0, 10, 10⟩ ⟨5, 5, 15, 15⟩ ∧
      calculate_iou ⟨0, 0, 10, 10⟩ ⟨5, 5, 15, 15⟩ ≤ 1) ∧
    calculate_iou ⟨0, 0, 10, 10⟩ ⟨0, 0, 10, 10⟩ = 1 :=
  ⟨iou_range_and_self.1 ⟨0, 0, 10, 10⟩ ⟨5, 5, 15, 15⟩
      (by norm_num) (by norm_num) (by norm_num) (by norm_num),
   iou_range_and_self.2 ⟨0, 0, 10, 10⟩ (by norm_num) (by norm_num)
      (by norm_num [boxArea])⟩

/-! ## Concrete IoU values used by several scenarios -/

/-- Identical boxes (0,0,10,10): IoU is 1. -/
lemma iou_AA : calculate_iou ⟨0, 0, 10, 10⟩ ⟨0, 0, 10, 10⟩ = 1 := by
  rw [iou_eval _ _ (by norm_num [unionArea, interArea, boxArea])]
  norm_num [unionArea, interArea, boxArea]

/-- Boxes (0,0,10,10) and (5,5,15,15): intersection 25, union 175, IoU 1/7. -/
lemma iou_AB : calculate_iou ⟨0, 0, 10, 10⟩ ⟨5, 5, 15, 15⟩ = 1/7 := by
  rw [iou_eval _ _ (by norm_num [unionArea, interArea, boxArea])]
  norm_num [unionArea, interArea, boxArea]

/-- Disjoint boxes (0,0,10,10) and (100,100,110,110): IoU is 0. -/
lemma iou_AFar : calculate_iou ⟨0, 0, 10, 10⟩ ⟨100, 100, 110, 110⟩ = 0 := by
  rw [iou_eval _ _ (by norm_num [unionArea, interArea, boxArea])]
  norm_num [unionArea, interArea, boxArea]

/-- C1 counterexample: two identical boxes of the SAME class (car, id 2) with
IoU 1 > 0.4 do produce a CrashEvent and `potential_crash = true` — the code
never compares the two class ids before flagging a pair. -/
theorem same_class_pair_flagged_cx :
    analyze_detections ⟨0, none, none⟩ "t"
        [⟨0, 0, 10, 10⟩, ⟨0, 0, 10, 10⟩] [2, 2] [1/2, 1/2] =
      ⟨1, some "t", some ⟨"t", 2, 2, 0, 0, 0, 0, true,
        [⟨"car-car_collision", 1, 1/2, 2, 2⟩], 1/2⟩⟩ := by
  have hcheck : check_crash_scenarios [⟨0, 0, 10, 10⟩, ⟨0, 0, 10, 10⟩] [2, 2] [1/2, 1/2] =
      some (true, [⟨"car-car_collision", 1, 1/2, 2, 2⟩]) := by
    rw [check_two_boxes, iou_AA, if_pos (by norm_num : (0.4 : ℚ) < 1), min_self]
    rfl
  rw [analyze_eq_of_check _ _ hcheck]
  simp only [DetectorState.mk.injEq, Option.some.injEq, DetectionInfo.mk.injEq]
  norm_num [countClass, List.sum_cons, List.sum_nil]

/-- C1 amended: the pair scan flags any pair whose IoU exceeds the threshold,
whether or not the two class ids are equal; in particular a same-class pair
with IoU above 0.4 yields a CrashEvent and a true potential-crash flag. -/
theorem same_class_pair_flagged (b1 b2 : Box) (c : ℤ) (f1 f2 : ℚ)
    (h : (0.4 : ℚ) < calculate_iou b1 b2) :
    check_crash_scenarios [b1, b2] [c, c] [f1, f2] =
      some (true, [⟨determine_crash_type c c, calculate_iou b1 b2, min f1 f2, c, c⟩]) := by
  rw [check_two_boxes, if_pos h]

/-- Witness for the amended C1. -/
theorem same_class_pair_flagged_witness :
    (0.4 : ℚ) < calculate_iou ⟨0, 0, 10, 10⟩ ⟨0, 0, 10, 10⟩ ∧
    check_crash_scenarios [⟨0, 0, 10, 10⟩, ⟨0, 0, 10, 10⟩] [2, 2] [1/2, 1/2] =
      some (true, [⟨determine_crash_type 2 2, calculate_iou ⟨0, 0, 10, 10⟩ ⟨0, 0, 10, 10⟩,
        min (1/2) (1/2), 2, 2⟩]) := by
  have h04 : (0.4 : ℚ) < calculate_iou ⟨0, 0, 10, 10⟩ ⟨0, 0, 10, 10⟩ := by
    rw [iou_AA]; norm_num
  exact ⟨h04, same_class_pair_flagged _ _ 2 _ _ h04⟩

/-- C3 amended: an empty frame yields an all-zero summary with no crash, mean
confidence 0 and an unchanged `last_crash_time` — but `detection_count` is
incremented for the empty frame too (the increment is unconditional on the
array path of `_analyze_detections`). -/
theorem analyze_empty_detections (s : DetectorState) (now : String) :
    analyze_detections s now [] [] [] =
      { detection_count := s.detection_count + 1
        last_crash_time := s.last_crash_time
        last_detection_info := some ⟨now, 0, 0, 0, 0, 0, 0, false, [], 0⟩ } := by
  rw [analyze_eq_of_check _ _ (check_lt_two_boxes [] [] [] 0.4 (by simp))]
  rfl

/-- C3 counterexample: the frame-analyzed counter is NOT left unchanged by an
empty-input call — it increments from 0 to 1. -/
theorem empty_input_counter_cx :
    (analyze_detections ⟨0, none, none⟩ "t" [] [] []).detection_count ≠
      (⟨0, none, none⟩ : DetectorState).detection_count := by
  rw [analyze_eq_of_check _ _ (check_lt_two_boxes [] [] [] 0.4 (by simp))]
  simp

/-- C4 amended: there is no explicit validation; when the classes array is
strictly shorter than the boxes array (with at least two boxes), the scan hits
an index error which the `except` branch swallows, nulling
`last_detection_info` while leaving `detection_count` and `last_crash_time`
unchanged. -/
theorem mismatched_shorter_classes_rejected (s : DetectorState) (now : String)
    (boxes : List Box) (classes : List ℤ) (confs : List ℚ)
    (h2 : 2 ≤ boxes.length) (hlt : classes.length < boxes.length) :
    analyze_detections s now boxes classes confs =
      { s with last_detection_info := none } := by
  apply analyze_eq_of_check_none
  have hrow : rowCheck boxes classes confs 0.4 classes.length = none := by
    unfold rowCheck
    rw [List.get?_eq_get hlt, List.get?_eq_none.mpr (le_refl _)]
    rfl
  have hnone : loopCollect (rowCheck boxes classes confs 0.4)
      (List.range boxes.length) = none :=
    loopCollect_none (List.mem_range.mpr hlt) hrow
  unfold check_crash_scenarios
  rw [if_neg (by omega), hnone]
  rfl

/-- Witness for the amended C4: two boxes but a single class entry. -/
theorem mismatched_shorter_classes_rejected_witness :
    2 ≤ ([(⟨0, 0, 10, 10⟩ : Box), ⟨100, 100, 110, 110⟩]).length ∧
    ([2] : List ℤ).length < ([(⟨0, 0, 10, 10⟩ : Box), ⟨100, 100, 110, 110⟩]).length ∧
    analyze_detections ⟨0, none, none⟩ "t"
        [⟨0, 0, 10, 10⟩, ⟨100, 100, 110, 110⟩] [2] [1/2, 1/2] =
      ⟨0, none, none⟩ :=
  ⟨by simp, by simp,
   mismatched_shorter_classes_rejected ⟨0, none, none⟩ "t"
     [⟨0, 0, 10, 10⟩, ⟨100, 100, 110, 110⟩] [2] [1/2, 1/2] (by simp) (by simp)⟩

/-- C4 counterexample: a mismatched call (three class entries against two
boxes) is NOT rejected — it completes, counts all three class entries (three
cars against two detected objects) and increments the session counter. -/
theorem mismatched_arrays_accepted_cx :
    analyze_detections ⟨0, none, none⟩ "t"
        [⟨0, 0, 10, 10⟩, ⟨100, 100, 110, 110⟩] [2, 2, 2] [1/2, 1/2] =
      ⟨1, none, some ⟨"t", 2, 3, 0, 0, 0, 0, false, [], 1/2⟩⟩ := by
  have hcheck : check_crash_scenarios [⟨0, 0, 10, 10⟩, ⟨100, 100, 110, 110⟩]
      [2, 2, 2] [1/2, 1/2] = some (false, []) := by
    rw [check_two_boxes, iou_AFar, if_neg (by norm_num : ¬ ((0.4 : ℚ) < 0))]
  rw [analyze_eq_of_check _ _ hcheck]
  simp only [DetectorState.mk.injEq, Option.some.injEq, DetectionInfo.mk.injEq]
  norm_num [countClass, List.sum_cons, List.sum_nil]

/-- Unfolding `np.sum(classes == k)` over a cons cell. -/
lemma countClass_cons (c k : ℤ) (cs : List ℤ) :
    countClass (c :: cs) k = (if c = k then 1 else 0) + countClass cs k := by
  by_cases h : c = k
  · simp [countClass, h]
    omega
  · simp [countClass, h]

/-- The five per-class counters of `_analyze_detections` (person, car,
motorcycle, bus, truck) sum to at most the number of class entries, with
equality exactly when every class id is one of 0, 2, 3, 5, 7. -/
lemma tracked_count_sum (classes : List ℤ) :
    countClass classes 0 + countClass classes 2 + countClass classes 3 +
        countClass classes 5 + countClass classes 7 ≤ classes.length ∧
      (countClass classes 0 + countClass classes 2 + countClass classes 3 +
          countClass classes 5 + countClass classes 7 = classes.length ↔
        ∀ c ∈ classes, c = 0 ∨ c = 2 ∨ c = 3 ∨ c = 5 ∨ c = 7) := by
  induction classes with
  | nil => simp [countClass]
  | cons c cs ih =>
      obtain ⟨ih1, ih2⟩ := ih
      simp only [countClass_cons, List.length_cons, List.forall_mem_cons]
      by_cases h0 : c = 0
      · subst h0
        norm_num
        refine ⟨by omega, ?_, ?_⟩
        · intro hEq
          exact ih2.mp (by omega)
        · intro hQ
          have hS := ih2.mpr hQ
          omega
      · by_cases h2 : c = 2
        · subst h2
          norm_num
          refine ⟨by omega, ?_, ?_⟩
          · intro hEq
            exact ih2.mp (by omega)
          · intro hQ
            have hS := ih2.mpr hQ
            omega
        · by_cases h3 : c = 3
          · subst h3
            norm_num
            refine ⟨by omega, ?_, ?_⟩
            · intro hEq
              exact ih2.mp (by omega)
            · intro hQ
              have hS := ih2.mpr hQ
              omega
          · by_cases h5 : c = 5
            · subst h5
              norm_num
              refine ⟨by omega, ?_, ?_⟩
              · intro hEq
                exact ih2.mp (by omega)
              · intro hQ
                have hS := ih2.mpr hQ
                omega
            · by_cases h7 : c = 7
              · subst h7
                norm_num
                refine ⟨by omega, ?_, ?_⟩
                · intro hEq
                  exact ih2.mp (by omega)
                · intro hQ
                  have hS := ih2.mpr hQ
                  omega
              · simp only [if_neg h0, if_neg h2, if_neg h3, if_neg h5, if_neg h7]
                refine ⟨by omega, ?_, ?_⟩
                · intro hEq
                  exfalso
                  omega
                · rintro ⟨hc, -⟩
                  exfalso
                  rcases hc with rfl | rfl | rfl | rfl | rfl <;> simp_all

/-- C2 amended: for aligned arrays the sum of the five per-class counts kept
by `_analyze_detections` (persons, cars, motorcycles, buses, trucks) is at
most `objects_detected`, with equality exactly when every class id is one of
0, 2, 3, 5, 7 — bicycle (1) has no per-class counter and counts only toward
the total. -/
theorem tracked_count_conservation (s : DetectorState) (now : String)
    (boxes : List Box) (classes : List ℤ) (confs : List ℚ) (info : DetectionInfo)
    (hlen : classes.length = boxes.length)
    (h : (analyze_detections s now boxes classes confs).last_detection_info = some info) :
    info.persons + info.cars + info.motorcycles + info.buses + info.trucks ≤
      info.objects_detected ∧
    (info.persons + info.cars + info.motorcycles + info.buses + info.trucks =
        info.objects_detected ↔
      ∀ c ∈ classes, c = 0 ∨ c = 2 ∨ c = 3 ∨ c = 5 ∨ c = 7) := by
  unfold analyze_detections at h
  cases hc : check_crash_scenarios boxes classes confs with
  | none =>
      rw [hc] at h
      simp at h
  | some pe =>
      obtain ⟨p, evs⟩ := pe
      rw [hc] at h
      simp only [Option.some.injEq] at h
      subst h
      dsimp only
      rw [← hlen]
      exact tracked_count_sum classes

/-- Witness for the amended C2 on an aligned car+person frame. -/
theorem tracked_count_conservation_witness :
    ([2, 0] : List ℤ).length = ([(⟨0, 0, 10, 10⟩ : Box), ⟨5, 5, 15, 15⟩]).length ∧
    (analyze_detections ⟨0, none, none⟩ "t"
        [⟨0, 0, 10, 10⟩, ⟨5, 5, 15, 15⟩] [2, 0] [9/10, 8/10]).last_detection_info =
      some ⟨"t", 2, 1, 0, 0, 1, 0, false, [], 17/20⟩ ∧
    ((1 + 1 + 0 + 0 + 0 : ℕ) ≤ 2 ∧
      ((1 + 1 + 0 + 0 + 0 : ℕ) = 2 ↔
        ∀ c ∈ ([2, 0] : List ℤ), c = 0 ∨ c = 2 ∨ c = 3 ∨ c = 5 ∨ c = 7)) := by
  have hcheck : check_crash_scenarios [⟨0, 0, 10, 10⟩, ⟨5, 5, 15, 15⟩] [2, 0] [9/10, 8/10] =
      some (false, []) := by
    rw [check_two_boxes, iou_AB, if_neg (by norm_num : ¬ ((0.4 : ℚ) < 1/7))]
  have h1 : (analyze_detections ⟨0, none, none⟩ "t"
      [⟨0, 0, 10, 10⟩, ⟨5, 5, 15, 15⟩] [2, 0] [9/10, 8/10]).last_detection_info =
      some ⟨"t", 2, 1, 0, 0, 1, 0, false, [], 17/20⟩ := by
    rw [analyze_eq_of_check _ _ hcheck]
    simp only [Option.some.injEq, DetectionInfo.mk.injEq]
    norm_num [countClass, List.sum_cons, List.sum_nil]
  exact ⟨rfl, h1,
    tracked_count_conservation ⟨0, none, none⟩ "t" _ _ _ _ rfl h1⟩

/-- C2 counterexample: a frame of two bicycles (class 1, one of the six names
in the class table) has every class id inside the six-class table, yet the sum
of the named per-class counts is 0 while `objects_detected` is 2 — bicycles
are never counted per class. -/
theorem bicycle_count_gap_cx :
    (analyze_detections ⟨0, none, none⟩ "t"
        [⟨0, 0, 10, 10⟩, ⟨100, 100, 110, 110⟩] [1, 1] [1/2, 1/2]).last_detection_info =
      some ⟨"t", 2, 0, 0, 0, 0, 0, false, [], 1/2⟩ ∧
    countClass [1, 1] 0 + countClass [1, 1] 2 + countClass [1, 1] 3 +
      countClass [1, 1] 5 + countClass [1, 1] 7 ≠ ([1, 1] : List ℤ).length ∧
    classNames 1 = some "bicycle" := by
  have hcheck : check_crash_scenarios [⟨0, 0, 10, 10⟩, ⟨100, 100, 110, 110⟩]
      [1, 1] [1/2, 1/2] = some (false, []) := by
    rw [check_two_boxes, iou_AFar, if_neg (by norm_num : ¬ ((0.4 : ℚ) < 0))]
  refine ⟨?_, by decide, rfl⟩
  rw [analyze_eq_of_check _ _ hcheck]
  simp only [Option.some.injEq, DetectionInfo.mk.injEq]
  norm_num [countClass, List.sum_cons, List.sum_nil]

/-- Inversion of the inner-loop body: an event it emitted comes from the reads
`boxes[j]`, `classes[j]`, `confidences[i]`, `confidences[j]` with the IoU
strictly above the threshold. -/
lemma pairCheck_mem {boxes : List Box} {classes : List ℤ} {confs : List ℚ}
    {thr : ℚ} {bi : Box} {ci : ℤ} {i j : ℕ} {evs : List CrashEvent}
    {ev : CrashEvent}
    (h : pairCheck boxes classes confs thr bi ci i j = some evs) (hm : ev ∈ evs) :
    ∃ bj cj fi fj, boxes.get? j = some bj ∧ classes.get? j = some cj ∧
      confs.get? i = some fi ∧ confs.get? j = some fj ∧
      thr < calculate_iou bi bj ∧
      ev = ⟨determine_crash_type ci cj, calculate_iou bi bj, min fi fj, ci, cj⟩ := by
  simp only [pairCheck] at h
  obtain ⟨bj, hbj, h⟩ := Option.bind_eq_some.mp h
  obtain ⟨cj, hcj, h⟩ := Option.bind_eq_some.mp h
  by_cases hiou : calculate_iou bi bj > thr
  · rw [if_pos hiou] at h
    obtain ⟨fi, hfi, h⟩ := Option.bind_eq_some.mp h
    obtain ⟨fj, hfj, h⟩ := Option.bind_eq_some.mp h
    have hevs := Option.some.inj h
    subst hevs
    exact ⟨bj, cj, fi, fj, hbj, hcj, hfi, hfj, hiou, List.mem_singleton.mp hm⟩
  · rw [if_neg hiou] at h
    have hevs := Option.some.inj h
    subst hevs
    simp at hm

/-- Inversion of the outer-loop body: an event of row `i` is an
`eventFromPair` (its inner index `j` satisfies `i < j`). -/
lemma rowCheck_mem {boxes : List Box} {classes : List ℤ} {confs : List ℚ}
    {thr : ℚ} {i : ℕ} {evs : List CrashEvent} {ev : CrashEvent}
    (h : rowCheck boxes classes confs thr i = some evs) (hm : ev ∈ evs) :
    eventFromPair boxes classes confs thr ev := by
  unfold rowCheck at h
  obtain ⟨bi, hbi, h⟩ := Option.bind_eq_some.mp h
  obtain ⟨ci, hci, h⟩ := Option.bind_eq_some.mp h
  obtain ⟨j, hj, evsj, hpj, hmj⟩ := loopCollect_mem h hm
  have hij : i < j := by
    have := List.mem_range'_1.mp hj
    omega
  obtain ⟨bj, cj, fi, fj, hbj, hcj, hfi, hfj, hiou, hev⟩ := pairCheck_mem hpj hmj
  exact ⟨i, j, bi, bj, ci, cj, fi, fj, hij, hbi, hbj, hci, hcj, hfi, hfj, hiou, hev⟩

/-- C6: every CrashEvent emitted by `_check_crash_scenarios` carries the
pair's IoU, confidence equal to the minimum of the two detections'
confidences, and the class-table label; concretely, for box A=(0,0,10,10)
car(2) conf 0.9 and box B=(5,5,15,15) person(0) conf 0.8 the IoU is 1/7
(≈0.143) — no crash at the default threshold 0.4, while at threshold 1/10
there is exactly one event "car-person_collision" with confidence 0.8 and a
true potential-crash flag. -/
theorem crash_event_fields :
    (∀ (boxes : List Box) (classes : List ℤ) (confs : List ℚ) (thr : ℚ)
        (p : Bool) (evs : List CrashEvent) (ev : CrashEvent),
        check_crash_scenarios boxes classes confs thr = some (p, evs) → ev ∈ evs →
        eventFromPair boxes classes confs thr ev) ∧
    calculate_iou ⟨0, 0, 10, 10⟩ ⟨5, 5, 15, 15⟩ = 1/7 ∧
    check_crash_scenarios [⟨0, 0, 10, 10⟩, ⟨5, 5, 15, 15⟩] [2, 0] [9/10, 8/10] =
      some (false, []) ∧
    check_crash_scenarios [⟨0, 0, 10, 10⟩, ⟨5, 5, 15, 15⟩] [2, 0] [9/10, 8/10] (1/10) =
      some (true, [⟨"car-person_collision", 1/7, 8/10, 2, 0⟩]) := by
  refine ⟨?_, iou_AB, ?_, ?_⟩
  · intro boxes classes confs thr p evs ev h hm
    unfold check_crash_scenarios at h
    split at h
    · simp only [Option.some.injEq, Prod.mk.injEq] at h
      obtain ⟨-, rfl⟩ := h
      simp at hm
    · obtain ⟨evs0, hl, heq⟩ := Option.map_eq_some'.mp h
      simp only [Prod.mk.injEq] at heq
      obtain ⟨-, rfl⟩ := heq
      obtain ⟨i, -, evsi, hrow, hmi⟩ := loopCollect_mem hl hm
      exact rowCheck_mem hrow hmi
  · rw [check_two_boxes, iou_AB, if_neg (by norm_num : ¬ ((0.4 : ℚ) < 1/7))]
  · rw [check_two_boxes, iou_AB, if_pos (by norm_num : (1/10 : ℚ) < 1/7),
      min_eq_right (by norm_num : (8/10 : ℚ) ≤ 9/10)]
    rfl

/-- Witness for C6: the single event of the threshold-1/10 scenario is an
`eventFromPair` of that input. -/
theorem crash_event_fields_witness :
    check_crash_scenarios [⟨0, 0, 10, 10⟩, ⟨5, 5, 15, 15⟩] [2, 0] [9/10, 8/10] (1/10) =
      some (true, [⟨"car-person_collision", 1/7, 8/10, 2, 0⟩]) ∧
    (⟨"car-person_collision", 1/7, 8/10, 2, 0⟩ : CrashEvent) ∈
      ([⟨"car-person_collision", 1/7, 8/10, 2, 0⟩] : List CrashEvent) ∧
    eventFromPair [⟨0, 0, 10, 10⟩, ⟨5, 5, 15, 15⟩] [2, 0] [9/10, 8/10] (1/10)
      ⟨"car-person_collision", 1/7, 8/10, 2, 0⟩ :=
  ⟨crash_event_fields.2.2.2, List.mem_singleton_self _,
   crash_event_fields.1 _ _ _ _ _ _ _ crash_event_fields.2.2.2
     (List.mem_singleton_self _)⟩
